import Mathlib

/-!
Shallow embedding of the two Ready Trader Go autotrader strategy variants:

* variant A (`Autotrader`, from autotrader.py): fill-and-kill quoting with a
  trend adjustment, and cancel-and-unwind handling of position-limit breaches;
* variant B (`Autotrader5`, from autotrader5.py): good-for-day quoting with
  depth-aware sizing, and clamp-to-limit handling of position-limit breaches.

Python integers are embedded as `ℤ`/`ℕ`, Python float arithmetic in the
pricing code as `ℚ` (all divisors are the fixed constants 2 and 100, and every
value the code compares or floors is exactly representable, so the rational
model agrees with the float evaluation on the ranges involved; `x // t * t` on
floats is floor division and is modelled by `Int.floor`).  The venue guarantees
an order-book ladder of at least three levels, so a book event carries exactly
the ladder entries the handlers read (indices 0 and 2).  Wall-clock order
timestamps (`order_timestamps` in variant A) are kept by the code purely for
logging and are read by none of the handlers, so they are not part of the
embedded state.
-/

namespace RTG

/-- Order side; `Side.BUY`/`Side.BID` and `Side.SELL`/`Side.ASK` are aliases
in the framework, embedded as the two constructors `bid` and `ask`. -/
inductive Side where
  | bid
  | ask
deriving DecidableEq, Repr

/-- Order lifespan (time-in-force) of an insert command. -/
inductive Lifespan where
  | fillAndKill
  | gfd
deriving DecidableEq, Repr

/-- Outbound commands the autotraders can emit (`send_insert_order`,
`send_cancel_order`, `send_hedge_order`). -/
inductive Command where
  | insertOrder (id : ℕ) (side : Side) (price : ℤ) (size : ℤ) (lifespan : Lifespan)
  | cancelOrder (id : ℕ)
  | hedgeOrder (id : ℕ) (side : Side) (price : ℤ) (volume : ℤ)
deriving DecidableEq, Repr

/-- The ladder entries of an order-book (or trade-ticks) message that the two
handlers actually read: index 0 of all four arrays and index 2 of the two
price arrays (the interface guarantees at least three levels). -/
structure BookData where
  ask_price0 : ℤ
  ask_volume0 : ℤ
  bid_price0 : ℤ
  bid_volume0 : ℤ
  ask_price2 : ℤ
  bid_price2 : ℤ
deriving DecidableEq, Repr

/-- Inbound events delivered by the connectivity layer, one handler each.
Fill volume is a `ℕ`: the wire format reports filled volume as a non-negative
count. -/
inductive Event where
  | errorMessage (client_order_id : ℕ)
  | hedgeFilledMessage (client_order_id : ℕ) (price : ℤ) (volume : ℤ)
  | orderFilledMessage (client_order_id : ℕ) (price : ℤ) (volume : ℕ)
  | orderStatusMessage (client_order_id : ℕ) (fill_volume : ℤ) (remaining_volume : ℤ) (fees : ℤ)
  | orderBookUpdate (instrument : ℕ) (sequence_number : ℕ) (book : BookData)
  | tradeTicks (instrument : ℕ) (sequence_number : ℕ) (book : BookData)
deriving DecidableEq, Repr

/-- Position limit, identical in both source files. -/
def POSITION_LIMIT : ℤ := 100

/-- Tick size in cents, identical in both source files. -/
def TICK_SIZE_IN_CENTS : ℤ := 100

/-- Modelled from the spec: the venue minimum bid price (`MIN_PRICE`), value
of `MINIMUM_BID` in the ready_trader_go framework package, which is outside
the repository sources. -/
def MINIMUM_BID : ℤ := 1

/-- Modelled from the spec: the venue maximum ask price (`MAX_PRICE`), value
of `MAXIMUM_ASK` in the ready_trader_go framework package, which is outside
the repository sources. -/
def MAXIMUM_ASK : ℤ := 2147483647

/-- MIN_BID_NEAREST_TICK from the sources: minimum bid rounded up to the
tick grid. -/
def MIN_BID_NEAREST_TICK : ℤ :=
  (MINIMUM_BID + TICK_SIZE_IN_CENTS).fdiv TICK_SIZE_IN_CENTS * TICK_SIZE_IN_CENTS

/-- MAX_ASK_NEAREST_TICK from the sources: maximum ask rounded down to the
tick grid. -/
def MAX_ASK_NEAREST_TICK : ℤ :=
  MAXIMUM_ASK.fdiv TICK_SIZE_IN_CENTS * TICK_SIZE_IN_CENTS

/-- Instrument code of the tracked future (`Instrument.FUTURE` = 0 in the
framework). -/
def FUTURE : ℕ := 0

/-- Python `x // TICK_SIZE_IN_CENTS * TICK_SIZE_IN_CENTS` on a float/rational
price: floor to the tick grid. -/
def roundToTick (x : ℚ) : ℤ :=
  ⌊x / (TICK_SIZE_IN_CENTS : ℚ)⌋ * TICK_SIZE_IN_CENTS

end RTG

namespace Autotrader

/-- LOT_SIZE of autotrader.py. -/
def LOT_SIZE : ℤ := 10

/-- Mutable instance state of autotrader.py (variant A): order-id counter,
active-order sets, quote slots, position, and the trend-tracking pair. -/
structure State where
  next_order_id : ℕ
  bids : Finset ℕ
  asks : Finset ℕ
  ask_id : ℕ
  ask_price : ℤ
  bid_id : ℕ
  bid_price : ℤ
  position : ℤ
  trading_volume : ℚ
  price_trend : ℤ
deriving DecidableEq

/-- State built by the constructor: counter starts at 1, everything else
empty/zero. -/
def initialState : State :=
  { next_order_id := 1, bids := ∅, asks := ∅, ask_id := 0, ask_price := 0,
    bid_id := 0, bid_price := 0, position := 0, trading_volume := 0, price_trend := 0 }

/-- Trend adjustment block of on_order_book_update_message: when the stored
trading volume is nonzero, add the term to the fair price if the trend is
positive and subtract it otherwise. -/
def trend_adjustment (trading_volume : ℚ) (price_trend : ℤ) (spread : ℚ) : ℚ :=
  if trading_volume ≠ 0 then
    if price_trend > 0 then trading_volume / 100 * spread / 2
    else -(trading_volume / 100 * spread / 2)
  else 0

/-- Pricing block of on_order_book_update_message (variant A): fair price from
mid, inventory skew and trend, then clamped and tick-rounded bid/ask quotes.
Pure function of the snapshot and the pricing-relevant state. -/
def quote_prices (position : ℤ) (trading_volume : ℚ) (price_trend : ℤ)
    (b : RTG.BookData) : ℤ × ℤ :=
  let position_lots : ℤ := position.fdiv LOT_SIZE
  let mid_price : ℤ := (b.bid_price0 + b.ask_price0).fdiv 2
  let spread : ℤ := b.ask_price0 - b.bid_price0
  let fair_price0 : ℚ := (mid_price : ℚ) + (position_lots : ℚ) / 100 * (spread : ℚ) / 2
  let fair_price1 : ℚ :=
    min (RTG.MAX_ASK_NEAREST_TICK : ℚ) (max (RTG.MIN_BID_NEAREST_TICK : ℚ) fair_price0)
  let fair_price : ℚ := fair_price1 + trend_adjustment trading_volume price_trend (spread : ℚ)
  let bid_raw : ℚ := fair_price - (spread : ℚ) / 2
  let ask_raw : ℚ := fair_price + (spread : ℚ) / 2
  (RTG.roundToTick
      (min ((RTG.MAX_ASK_NEAREST_TICK - spread : ℤ) : ℚ)
        (max ((RTG.MIN_BID_NEAREST_TICK : ℤ) : ℚ) bid_raw)),
   RTG.roundToTick
      (min ((RTG.MAX_ASK_NEAREST_TICK : ℤ) : ℚ)
        (max ((RTG.MIN_BID_NEAREST_TICK + spread : ℤ) : ℚ) ask_raw)))

/-- Trend-tracking update block of on_order_book_update_message: first
observation stores the combined top-of-book volume, later ones set the trend
to the sign of the volume difference. -/
def trend_update (trading_volume : ℚ) (price_trend : ℤ) (b : RTG.BookData) : ℚ × ℤ :=
  if trading_volume = 0 then
    (((b.ask_volume0 + b.bid_volume0 : ℤ) : ℚ) / 2, price_trend)
  else
    let current_volume : ℚ := ((b.ask_volume0 + b.bid_volume0 : ℤ) : ℚ) / 2
    let volume_difference : ℚ := current_volume - trading_volume
    (current_volume,
     if volume_difference > 0 then 1 else if volume_difference < 0 then -1 else 0)

/-- Cancel-stale-bid block: cancel the active bid when the fresh bid price is
neither the stored bid price nor 0. -/
def cancel_stale_bid (s : State) (bid_price : ℤ) : State × List RTG.Command :=
  if s.bid_id ≠ 0 ∧ ¬(bid_price = s.bid_price ∨ bid_price = 0) then
    ({ s with bid_id := 0 }, [RTG.Command.cancelOrder s.bid_id])
  else (s, [])

/-- Cancel-stale-ask block, symmetric to the bid side. -/
def cancel_stale_ask (s : State) (ask_price : ℤ) : State × List RTG.Command :=
  if s.ask_id ≠ 0 ∧ ¬(ask_price = s.ask_price ∨ ask_price = 0) then
    ({ s with ask_id := 0 }, [RTG.Command.cancelOrder s.ask_id])
  else (s, [])

/-- Place-new-bid block (variant A): fixed-cap size, fill-and-kill lifespan,
fresh order id. -/
def place_bid (s : State) (bid_price : ℤ) : State × List RTG.Command :=
  if s.bid_id = 0 ∧ s.position < RTG.POSITION_LIMIT then
    let max_order_size : ℤ := min (RTG.POSITION_LIMIT - s.position) LOT_SIZE
    let n : ℕ := s.next_order_id
    ({ s with
        next_order_id := n + 1
        bid_id := n
        bid_price := bid_price
        bids := insert n s.bids },
     [RTG.Command.insertOrder n RTG.Side.bid bid_price max_order_size RTG.Lifespan.fillAndKill])
  else (s, [])

/-- Place-new-ask block (variant A), symmetric to the bid side. -/
def place_ask (s : State) (ask_price : ℤ) : State × List RTG.Command :=
  if s.ask_id = 0 ∧ s.position > -RTG.POSITION_LIMIT then
    let max_order_size : ℤ := min (RTG.POSITION_LIMIT + s.position) LOT_SIZE
    let n : ℕ := s.next_order_id
    ({ s with
        next_order_id := n + 1
        ask_id := n
        ask_price := ask_price
        asks := insert n s.asks },
     [RTG.Command.insertOrder n RTG.Side.ask ask_price max_order_size RTG.Lifespan.fillAndKill])
  else (s, [])

/-- on_order_book_update_message of autotrader.py: for the tracked future,
compute quotes from the pre-update trend state, update the trend state, then
cancel stale quotes and place fresh ones. -/
def on_order_book_update_message (s : State) (instrument : ℕ) (_sequence_number : ℕ)
    (b : RTG.BookData) : State × List RTG.Command :=
  if instrument = RTG.FUTURE then
    let prices := quote_prices s.position s.trading_volume s.price_trend b
    let tv := trend_update s.trading_volume s.price_trend b
    let s0 : State := { s with trading_volume := tv.1, price_trend := tv.2 }
    let r1 := cancel_stale_bid s0 prices.1
    let r2 := cancel_stale_ask r1.1 prices.2
    let r3 := place_bid r2.1 prices.1
    let r4 := place_ask r3.1 prices.2
    (r4.1, r1.2 ++ r2.2 ++ r3.2 ++ r4.2)
  else (s, [])

/-- on_order_filled_message of autotrader.py: apply the fill to the position;
on a limit breach cancel the triggering order and roll the position back,
otherwise hedge the filled volume at the worst permissible price. -/
def on_order_filled_message (s : State) (client_order_id : ℕ) (_price : ℤ)
    (volume : ℕ) : State × List RTG.Command :=
  if client_order_id ∈ s.bids then
    let newPosition : ℤ := s.position + volume
    if newPosition > RTG.POSITION_LIMIT then
      ({ s with position := newPosition - volume }, [RTG.Command.cancelOrder client_order_id])
    else
      ({ s with position := newPosition, next_order_id := s.next_order_id + 1 },
       [RTG.Command.hedgeOrder s.next_order_id RTG.Side.ask RTG.MIN_BID_NEAREST_TICK (volume : ℤ)])
  else if client_order_id ∈ s.asks then
    let newPosition : ℤ := s.position - volume
    if newPosition < -RTG.POSITION_LIMIT then
      ({ s with position := newPosition + volume }, [RTG.Command.cancelOrder client_order_id])
    else
      ({ s with position := newPosition, next_order_id := s.next_order_id + 1 },
       [RTG.Command.hedgeOrder s.next_order_id RTG.Side.bid RTG.MAX_ASK_NEAREST_TICK (volume : ℤ)])
  else (s, [])

/-- on_order_status_message of autotrader.py: on a terminal status clear the
matching quote slot and drop the id from both active sets. -/
def on_order_status_message (s : State) (client_order_id : ℕ) (_fill_volume : ℤ)
    (remaining_volume : ℤ) (_fees : ℤ) : State × List RTG.Command :=
  if remaining_volume = 0 then
    let s1 : State :=
      if client_order_id = s.bid_id then { s with bid_id := 0 }
      else if client_order_id = s.ask_id then { s with ask_id := 0 }
      else s
    ({ s1 with
        bids := s1.bids.erase client_order_id
        asks := s1.asks.erase client_order_id }, [])
  else (s, [])

/-- on_error_message of autotrader.py: for a known nonzero order id, treat the
error as a terminal zero-remaining status event. -/
def on_error_message (s : State) (client_order_id : ℕ) : State × List RTG.Command :=
  if client_order_id ≠ 0 ∧ (client_order_id ∈ s.bids ∨ client_order_id ∈ s.asks) then
    on_order_status_message s client_order_id 0 0 0
  else (s, [])

/-- on_hedge_filled_message of autotrader.py: logging only, no state change
and no command. -/
def on_hedge_filled_message (s : State) (_client_order_id : ℕ) (_price : ℤ)
    (_volume : ℤ) : State × List RTG.Command :=
  (s, [])

end Autotrader

/-- One dispatched event for variant A.  autotrader.py does not override
on_trade_ticks_message, and the framework base-class handler is a no-op. -/
def stepA (s : Autotrader.State) : RTG.Event → Autotrader.State × List RTG.Command
  | RTG.Event.errorMessage cid => Autotrader.on_error_message s cid
  | RTG.Event.hedgeFilledMessage cid p v => Autotrader.on_hedge_filled_message s cid p v
  | RTG.Event.orderFilledMessage cid p v => Autotrader.on_order_filled_message s cid p v
  | RTG.Event.orderStatusMessage cid f r fees => Autotrader.on_order_status_message s cid f r fees
  | RTG.Event.orderBookUpdate i sq b => Autotrader.on_order_book_update_message s i sq b
  | RTG.Event.tradeTicks _ _ _ => (s, [])

/-- State reached by variant A after a list of events, from the constructor
state. -/
def execA (events : List RTG.Event) : Autotrader.State :=
  events.foldl (fun s e => (stepA s e).1) Autotrader.initialState

namespace Autotrader5

/-- LOT_SIZE of autotrader5.py. -/
def LOT_SIZE : ℤ := 20

/-- Value stored in the bids/asks dictionaries of autotrader5.py for each
outstanding order: its quoted price and requested size. -/
structure OrderInfo where
  price : ℤ
  size : ℤ
deriving DecidableEq, Repr

/-- A Python dict from order id to OrderInfo, embedded as an association
list. -/
abbrev Dict : Type := List (ℕ × OrderInfo)

/-- Dict key membership. -/
def dictContains (d : Dict) (cid : ℕ) : Bool :=
  d.any (fun p => p.1 == cid)

/-- Python dict.pop(cid, None): remove the key if present. -/
def dictPop (d : Dict) (cid : ℕ) : Dict :=
  d.filter (fun p => p.1 != cid)

/-- Python dict assignment d[cid] = info. -/
def dictStore (d : Dict) (cid : ℕ) (info : OrderInfo) : Dict :=
  dictPop d cid ++ [(cid, info)]

/-- Sum of the sizes of the orders in a dict (the outstanding same-side
volume used by the sizing rule). -/
def outstandingVolume (d : Dict) : ℤ :=
  (d.map (fun p => p.2.size)).sum

/-- Mutable instance state of autotrader5.py (variant B). -/
structure State where
  next_order_id : ℕ
  bids : Dict
  asks : Dict
  ask_id : ℕ
  ask_price : ℤ
  bid_id : ℕ
  bid_price : ℤ
  position : ℤ
deriving DecidableEq

/-- State built by the constructor of autotrader5.py. -/
def initialState : State :=
  { next_order_id := 1, bids := [], asks := [], ask_id := 0, ask_price := 0,
    bid_id := 0, bid_price := 0, position := 0 }

/-- Pricing block of on_order_book_update_message (variant B): same shape as
variant A but the spread is taken at ladder depth 2 and there is no trend
adjustment. -/
def quote_prices (position : ℤ) (b : RTG.BookData) : ℤ × ℤ :=
  let position_lots : ℤ := position.fdiv LOT_SIZE
  let mid_price : ℤ := (b.bid_price0 + b.ask_price0).fdiv 2
  let spread : ℤ := b.ask_price2 - b.bid_price2
  let fair_price0 : ℚ := (mid_price : ℚ) + (position_lots : ℚ) / 100 * (spread : ℚ) / 2
  let fair_price : ℚ :=
    min (RTG.MAX_ASK_NEAREST_TICK : ℚ) (max (RTG.MIN_BID_NEAREST_TICK : ℚ) fair_price0)
  let bid_raw : ℚ := fair_price - (spread : ℚ) / 2
  let ask_raw : ℚ := fair_price + (spread : ℚ) / 2
  (RTG.roundToTick
      (min ((RTG.MAX_ASK_NEAREST_TICK - spread : ℤ) : ℚ)
        (max ((RTG.MIN_BID_NEAREST_TICK : ℤ) : ℚ) bid_raw)),
   RTG.roundToTick
      (min ((RTG.MAX_ASK_NEAREST_TICK : ℤ) : ℚ)
        (max ((RTG.MIN_BID_NEAREST_TICK + spread : ℤ) : ℚ) ask_raw)))

/-- Cancel-stale-bid block of variant B (same rule as variant A). -/
def cancel_stale_bid (s : State) (bid_price : ℤ) : State × List RTG.Command :=
  if s.bid_id ≠ 0 ∧ ¬(bid_price = s.bid_price ∨ bid_price = 0) then
    ({ s with bid_id := 0 }, [RTG.Command.cancelOrder s.bid_id])
  else (s, [])

/-- Cancel-stale-ask block of variant B. -/
def cancel_stale_ask (s : State) (ask_price : ℤ) : State × List RTG.Command :=
  if s.ask_id ≠ 0 ∧ ¬(ask_price = s.ask_price ∨ ask_price = 0) then
    ({ s with ask_id := 0 }, [RTG.Command.cancelOrder s.ask_id])
  else (s, [])

/-- Place-new-bid block (variant B): size capped at 14, net of outstanding
bid volume, bounded by top-of-book bid depth and clamped to be nonnegative;
the insert command is sent unconditionally once the enclosing guard holds. -/
def place_bid (s : State) (bid_price : ℤ) (bid_volume : ℤ) : State × List RTG.Command :=
  if s.bid_id = 0 ∧ s.position < RTG.POSITION_LIMIT then
    let outstanding_bid_volume : ℤ := outstandingVolume s.bids
    let max_order_size : ℤ :=
      min 14 (max 0 (min (RTG.POSITION_LIMIT - s.position - outstanding_bid_volume) bid_volume))
    let n : ℕ := s.next_order_id
    ({ s with
        next_order_id := n + 1
        bid_id := n
        bid_price := bid_price
        bids := dictStore s.bids n ⟨bid_price, max_order_size⟩ },
     [RTG.Command.insertOrder n RTG.Side.bid bid_price max_order_size RTG.Lifespan.gfd])
  else (s, [])

/-- Place-new-ask block (variant B), symmetric to the bid side. -/
def place_ask (s : State) (ask_price : ℤ) (ask_volume : ℤ) : State × List RTG.Command :=
  if s.ask_id = 0 ∧ s.position > -RTG.POSITION_LIMIT then
    let outstanding_ask_volume : ℤ := outstandingVolume s.asks
    let max_order_size : ℤ :=
      min 14 (max 0 (min (RTG.POSITION_LIMIT + s.position - outstanding_ask_volume) ask_volume))
    let n : ℕ := s.next_order_id
    ({ s with
        next_order_id := n + 1
        ask_id := n
        ask_price := ask_price
        asks := dictStore s.asks n ⟨ask_price, max_order_size⟩ },
     [RTG.Command.insertOrder n RTG.Side.ask ask_price max_order_size RTG.Lifespan.gfd])
  else (s, [])

/-- on_order_book_update_message of autotrader5.py. -/
def on_order_book_update_message (s : State) (instrument : ℕ) (_sequence_number : ℕ)
    (b : RTG.BookData) : State × List RTG.Command :=
  if instrument = RTG.FUTURE then
    let prices := quote_prices s.position b
    let r1 := cancel_stale_bid s prices.1
    let r2 := cancel_stale_ask r1.1 prices.2
    let r3 := place_bid r2.1 prices.1 b.bid_volume0
    let r4 := place_ask r3.1 prices.2 b.ask_volume0
    (r4.1, r1.2 ++ r2.2 ++ r3.2 ++ r4.2)
  else (s, [])

/-- on_order_filled_message of autotrader5.py: apply the fill; on a limit
breach clamp the position to the limit (no command), otherwise hedge the
filled volume at the worst permissible price. -/
def on_order_filled_message (s : State) (client_order_id : ℕ) (_price : ℤ)
    (volume : ℕ) : State × List RTG.Command :=
  if dictContains s.bids client_order_id then
    let newPosition : ℤ := s.position + volume
    if newPosition > RTG.POSITION_LIMIT then
      ({ s with position := RTG.POSITION_LIMIT }, [])
    else
      ({ s with position := newPosition, next_order_id := s.next_order_id + 1 },
       [RTG.Command.hedgeOrder s.next_order_id RTG.Side.ask RTG.MIN_BID_NEAREST_TICK (volume : ℤ)])
  else if dictContains s.asks client_order_id then
    let newPosition : ℤ := s.position - volume
    if newPosition < -RTG.POSITION_LIMIT then
      ({ s with position := -RTG.POSITION_LIMIT }, [])
    else
      ({ s with position := newPosition, next_order_id := s.next_order_id + 1 },
       [RTG.Command.hedgeOrder s.next_order_id RTG.Side.bid RTG.MAX_ASK_NEAREST_TICK (volume : ℤ)])
  else (s, [])

/-- on_order_status_message of autotrader5.py. -/
def on_order_status_message (s : State) (client_order_id : ℕ) (_fill_volume : ℤ)
    (remaining_volume : ℤ) (_fees : ℤ) : State × List RTG.Command :=
  if remaining_volume = 0 then
    let s1 : State :=
      if client_order_id = s.bid_id then { s with bid_id := 0 }
      else if client_order_id = s.ask_id then { s with ask_id := 0 }
      else s
    ({ s1 with
        bids := dictPop s1.bids client_order_id
        asks := dictPop s1.asks client_order_id }, [])
  else (s, [])

/-- on_error_message of autotrader5.py. -/
def on_error_message (s : State) (client_order_id : ℕ) : State × List RTG.Command :=
  if client_order_id ≠ 0 ∧ (dictContains s.bids client_order_id ∨ dictContains s.asks client_order_id) then
    on_order_status_message s client_order_id 0 0 0
  else (s, [])

/-- on_hedge_filled_message of autotrader5.py: logging only. -/
def on_hedge_filled_message (s : State) (_client_order_id : ℕ) (_price : ℤ)
    (_volume : ℤ) : State × List RTG.Command :=
  (s, [])

/-- on_trade_ticks_message of autotrader5.py: logging only. -/
def on_trade_ticks_message (s : State) (_instrument : ℕ) (_sequence_number : ℕ)
    (_b : RTG.BookData) : State × List RTG.Command :=
  (s, [])

end Autotrader5

/-- One dispatched event for variant B. -/
def stepB (s : Autotrader5.State) : RTG.Event → Autotrader5.State × List RTG.Command
  | RTG.Event.errorMessage cid => Autotrader5.on_error_message s cid
  | RTG.Event.hedgeFilledMessage cid p v => Autotrader5.on_hedge_filled_message s cid p v
  | RTG.Event.orderFilledMessage cid p v => Autotrader5.on_order_filled_message s cid p v
  | RTG.Event.orderStatusMessage cid f r fees => Autotrader5.on_order_status_message s cid f r fees
  | RTG.Event.orderBookUpdate i sq b => Autotrader5.on_order_book_update_message s i sq b
  | RTG.Event.tradeTicks i sq b => Autotrader5.on_trade_ticks_message s i sq b

/-- State reached by variant B after a list of events, from the constructor
state. -/
def execB (events : List RTG.Event) : Autotrader5.State :=
  events.foldl (fun s e => (stepB s e).1) Autotrader5.initialState

/-- Invariant carried through every event for variant A: the position stays
within the limit, every issued id is below the counter, and the two quote
slots never hold the same nonzero id (fresh ids are never reused). -/
def InvA (s : Autotrader.State) : Prop :=
  0 < s.next_order_id ∧ s.bid_id < s.next_order_id ∧ s.ask_id < s.next_order_id ∧
  (s.bid_id = s.ask_id → s.bid_id = 0) ∧
  -RTG.POSITION_LIMIT ≤ s.position ∧ s.position ≤ RTG.POSITION_LIMIT

/-- Invariant carried through every event for variant B. -/
def InvB (s : Autotrader5.State) : Prop :=
  0 < s.next_order_id ∧ s.bid_id < s.next_order_id ∧ s.ask_id < s.next_order_id ∧
  (s.bid_id = s.ask_id → s.bid_id = 0) ∧
  -RTG.POSITION_LIMIT ≤ s.position ∧ s.position ≤ RTG.POSITION_LIMIT

/-- The price carried by a command is an integer multiple of the tick size
(cancel commands carry no price). -/
def priceAligned : RTG.Command → Prop
  | RTG.Command.insertOrder _ _ price _ _ => RTG.TICK_SIZE_IN_CENTS ∣ price
  | RTG.Command.cancelOrder _ => True
  | RTG.Command.hedgeOrder _ _ price _ => RTG.TICK_SIZE_IN_CENTS ∣ price

/-- The price carried by a command lies within the legal venue price range
(cancel commands carry no price). -/
def priceInRange : RTG.Command → Prop
  | RTG.Command.insertOrder _ _ price _ _ => RTG.MINIMUM_BID ≤ price ∧ price ≤ RTG.MAXIMUM_ASK
  | RTG.Command.cancelOrder _ => True
  | RTG.Command.hedgeOrder _ _ price _ => RTG.MINIMUM_BID ≤ price ∧ price ≤ RTG.MAXIMUM_ASK

/-- The spread variant A derives from the event (top-of-book) is nonnegative
and no wider than the whole legal price band.  Trivially true for events that
carry no ladder. -/
def spreadWithinBandA : RTG.Event → Prop
  | RTG.Event.orderBookUpdate _ _ b =>
      0 ≤ b.ask_price0 - b.bid_price0 ∧
      b.ask_price0 - b.bid_price0 ≤ RTG.MAX_ASK_NEAREST_TICK - RTG.MIN_BID_NEAREST_TICK
  | _ => True

/-- The spread variant B derives from the event (ladder depth 2) is
nonnegative and no wider than the whole legal price band. -/
def spreadWithinBandB : RTG.Event → Prop
  | RTG.Event.orderBookUpdate _ _ b =>
      0 ≤ b.ask_price2 - b.bid_price2 ∧
      b.ask_price2 - b.bid_price2 ≤ RTG.MAX_ASK_NEAREST_TICK - RTG.MIN_BID_NEAREST_TICK
  | _ => True

/-- Scenario 1 snapshot: best bid 10000 cents, best ask 10002 cents. -/
def scenario1Book : RTG.BookData :=
  { ask_price0 := 10002, ask_volume0 := 100, bid_price0 := 10000, bid_volume0 := 100,
    ask_price2 := 10002, bid_price2 := 10000 }

/-- A one-sided ladder: no bid (price 0) against an ask at the venue maximum,
giving an arbitrarily wide spread. -/
def wideBook : RTG.BookData :=
  { ask_price0 := 2147483647, ask_volume0 := 0, bid_price0 := 0, bid_volume0 := 0,
    ask_price2 := 2147483647, bid_price2 := 0 }

/-- A snapshot whose top-of-book bid depth is zero (bid_volume0 = 0). -/
def zeroDepthBook : RTG.BookData :=
  { ask_price0 := 10002, ask_volume0 := 50, bid_price0 := 10000, bid_volume0 := 0,
    ask_price2 := 10100, bid_price2 := 9900 }

theorem min_bid_nearest_tick_eq : RTG.MIN_BID_NEAREST_TICK = 100 := by decide

theorem max_ask_nearest_tick_eq : RTG.MAX_ASK_NEAREST_TICK = 2147483600 := by decide

theorem roundToTick_dvd (x : ℚ) : RTG.TICK_SIZE_IN_CENTS ∣ RTG.roundToTick x :=
  Dvd.intro _ (mul_comm _ _)

theorem roundToTick_bounds (x : ℚ) (h1 : (100 : ℚ) ≤ x) (h2 : x ≤ 2147483600) :
    100 ≤ RTG.roundToTick x ∧ RTG.roundToTick x ≤ 2147483600 := by
  unfold RTG.roundToTick RTG.TICK_SIZE_IN_CENTS
  have hc : (((100 : ℤ) : ℚ)) = (100 : ℚ) := by norm_num
  rw [hc]
  have hlo : (1 : ℤ) ≤ ⌊x / 100⌋ := by
    rw [Int.le_floor]
    push_cast
    linarith
  have hhi : ⌊x / 100⌋ ≤ 21474836 := by
    have h3 : x / 100 ≤ ((21474836 : ℤ) : ℚ) := by push_cast; linarith
    calc ⌊x / 100⌋ ≤ ⌊((21474836 : ℤ) : ℚ)⌋ := Int.floor_le_floor h3
      _ = 21474836 := Int.floor_intCast _
  omega

theorem bid_clamp_in_range (spread : ℤ) (raw : ℚ) (h0 : 0 ≤ spread)
    (h1 : spread ≤ RTG.MAX_ASK_NEAREST_TICK - RTG.MIN_BID_NEAREST_TICK) :
    RTG.MIN_BID_NEAREST_TICK ≤
        RTG.roundToTick (min ((RTG.MAX_ASK_NEAREST_TICK - spread : ℤ) : ℚ)
          (max ((RTG.MIN_BID_NEAREST_TICK : ℤ) : ℚ) raw))
      ∧ RTG.roundToTick (min ((RTG.MAX_ASK_NEAREST_TICK - spread : ℤ) : ℚ)
          (max ((RTG.MIN_BID_NEAREST_TICK : ℤ) : ℚ) raw)) ≤ RTG.MAX_ASK_NEAREST_TICK := by
  rw [min_bid_nearest_tick_eq, max_ask_nearest_tick_eq] at h1 ⊢
  have hsp : ((spread : ℚ)) ≤ 2147483500 := by exact_mod_cast h1
  have hsp0 : (0 : ℚ) ≤ (spread : ℚ) := by exact_mod_cast h0
  set m : ℚ := min ((2147483600 - spread : ℤ) : ℚ) (max (((100 : ℤ) : ℚ)) raw) with hm
  have hml : (100 : ℚ) ≤ m := by
    apply le_min
    · push_cast
      linarith
    · exact le_trans (by norm_num) (le_max_left _ _)
  have hmr : m ≤ 2147483600 := by
    refine le_trans (min_le_left _ _) ?hh
    push_cast
    linarith
  exact roundToTick_bounds m hml hmr

theorem ask_clamp_in_range (spread : ℤ) (raw : ℚ) (h0 : 0 ≤ spread)
    (h1 : spread ≤ RTG.MAX_ASK_NEAREST_TICK - RTG.MIN_BID_NEAREST_TICK) :
    RTG.MIN_BID_NEAREST_TICK ≤
        RTG.roundToTick (min ((RTG.MAX_ASK_NEAREST_TICK : ℤ) : ℚ)
          (max ((RTG.MIN_BID_NEAREST_TICK + spread : ℤ) : ℚ) raw))
      ∧ RTG.roundToTick (min ((RTG.MAX_ASK_NEAREST_TICK : ℤ) : ℚ)
          (max ((RTG.MIN_BID_NEAREST_TICK + spread : ℤ) : ℚ) raw)) ≤ RTG.MAX_ASK_NEAREST_TICK := by
  rw [min_bid_nearest_tick_eq, max_ask_nearest_tick_eq] at h1 ⊢
  have hsp : ((spread : ℚ)) ≤ 2147483500 := by exact_mod_cast h1
  have hsp0 : (0 : ℚ) ≤ (spread : ℚ) := by exact_mod_cast h0
  set m : ℚ := min (((2147483600 : ℤ)) : ℚ) (max ((100 + spread : ℤ) : ℚ) raw) with hm
  have hml : (100 : ℚ) ≤ m := by
    apply le_min
    · norm_num
    · refine le_trans ?hlo (le_max_left _ _)
      push_cast
      linarith
  have hmr : m ≤ 2147483600 := by
    refine le_trans (min_le_left _ _) ?hhi
    norm_num
  exact roundToTick_bounds m hml hmr

theorem cancelStaleBidA_cases (s : Autotrader.State) (p : ℤ) :
    Autotrader.cancel_stale_bid s p = ({ s with bid_id := 0 }, [RTG.Command.cancelOrder s.bid_id])
      ∨ Autotrader.cancel_stale_bid s p = (s, []) := by
  unfold Autotrader.cancel_stale_bid
  split
  · exact Or.inl rfl
  · exact Or.inr rfl

theorem cancelStaleAskA_cases (s : Autotrader.State) (p : ℤ) :
    Autotrader.cancel_stale_ask s p = ({ s with ask_id := 0 }, [RTG.Command.cancelOrder s.ask_id])
      ∨ Autotrader.cancel_stale_ask s p = (s, []) := by
  unfold Autotrader.cancel_stale_ask
  split
  · exact Or.inl rfl
  · exact Or.inr rfl

theorem placeBidA_cases (s : Autotrader.State) (p : ℤ) :
    Autotrader.place_bid s p =
        ({ s with next_order_id := s.next_order_id + 1, bid_id := s.next_order_id, bid_price := p, bids := insert s.next_order_id s.bids },
         [RTG.Command.insertOrder s.next_order_id RTG.Side.bid p
            (min (RTG.POSITION_LIMIT - s.position) Autotrader.LOT_SIZE) RTG.Lifespan.fillAndKill])
      ∨ Autotrader.place_bid s p = (s, []) := by
  unfold Autotrader.place_bid
  split
  · exact Or.inl rfl
  · exact Or.inr rfl

theorem placeAskA_cases (s : Autotrader.State) (p : ℤ) :
    Autotrader.place_ask s p =
        ({ s with next_order_id := s.next_order_id + 1, ask_id := s.next_order_id, ask_price := p, asks := insert s.next_order_id s.asks },
         [RTG.Command.insertOrder s.next_order_id RTG.Side.ask p
            (min (RTG.POSITION_LIMIT + s.position) Autotrader.LOT_SIZE) RTG.Lifespan.fillAndKill])
      ∨ Autotrader.place_ask s p = (s, []) := by
  unfold Autotrader.place_ask
  split
  · exact Or.inl rfl
  · exact Or.inr rfl

theorem cancelStaleBidB_cases (s : Autotrader5.State) (p : ℤ) :
    Autotrader5.cancel_stale_bid s p = ({ s with bid_id := 0 }, [RTG.Command.cancelOrder s.bid_id])
      ∨ Autotrader5.cancel_stale_bid s p = (s, []) := by
  unfold Autotrader5.cancel_stale_bid
  split
  · exact Or.inl rfl
  · exact Or.inr rfl

theorem cancelStaleAskB_cases (s : Autotrader5.State) (p : ℤ) :
    Autotrader5.cancel_stale_ask s p = ({ s with ask_id := 0 }, [RTG.Command.cancelOrder s.ask_id])
      ∨ Autotrader5.cancel_stale_ask s p = (s, []) := by
  unfold Autotrader5.cancel_stale_ask
  split
  · exact Or.inl rfl
  · exact Or.inr rfl

theorem placeBidB_cases (s : Autotrader5.State) (p bv : ℤ) :
    Autotrader5.place_bid s p bv =
        ({ s with next_order_id := s.next_order_id + 1, bid_id := s.next_order_id, bid_price := p, bids := Autotrader5.dictStore s.bids s.next_order_id ⟨p, min 14 (max 0 (min (RTG.POSITION_LIMIT - s.position - Autotrader5.outstandingVolume s.bids) bv))⟩ },
         [RTG.Command.insertOrder s.next_order_id RTG.Side.bid p
            (min 14 (max 0 (min (RTG.POSITION_LIMIT - s.position - Autotrader5.outstandingVolume s.bids) bv)))
            RTG.Lifespan.gfd])
      ∨ Autotrader5.place_bid s p bv = (s, []) := by
  unfold Autotrader5.place_bid
  split
  · exact Or.inl rfl
  · exact Or.inr rfl

theorem placeAskB_cases (s : Autotrader5.State) (p av : ℤ) :
    Autotrader5.place_ask s p av =
        ({ s with next_order_id := s.next_order_id + 1, ask_id := s.next_order_id, ask_price := p, asks := Autotrader5.dictStore s.asks s.next_order_id ⟨p, min 14 (max 0 (min (RTG.POSITION_LIMIT + s.position - Autotrader5.outstandingVolume s.asks) av))⟩ },
         [RTG.Command.insertOrder s.next_order_id RTG.Side.ask p
            (min 14 (max 0 (min (RTG.POSITION_LIMIT + s.position - Autotrader5.outstandingVolume s.asks) av)))
            RTG.Lifespan.gfd])
      ∨ Autotrader5.place_ask s p av = (s, []) := by
  unfold Autotrader5.place_ask
  split
  · exact Or.inl rfl
  · exact Or.inr rfl

theorem invA_init : InvA Autotrader.initialState := by
  unfold InvA Autotrader.initialState RTG.POSITION_LIMIT
  norm_num

theorem invB_init : InvB Autotrader5.initialState := by
  unfold InvB Autotrader5.initialState RTG.POSITION_LIMIT
  norm_num

theorem cancelStaleBidA_inv (s : Autotrader.State) (p : ℤ) (h : InvA s) :
    InvA (Autotrader.cancel_stale_bid s p).1 := by
  rcases cancelStaleBidA_cases s p with hc | hc <;> rw [hc] <;>
    (unfold InvA at h ⊢; dsimp; omega)

theorem cancelStaleAskA_inv (s : Autotrader.State) (p : ℤ) (h : InvA s) :
    InvA (Autotrader.cancel_stale_ask s p).1 := by
  rcases cancelStaleAskA_cases s p with hc | hc <;> rw [hc] <;>
    (unfold InvA at h ⊢; dsimp; omega)

theorem placeBidA_inv (s : Autotrader.State) (p : ℤ) (h : InvA s) :
    InvA (Autotrader.place_bid s p).1 := by
  rcases placeBidA_cases s p with hc | hc <;> rw [hc] <;>
    (unfold InvA at h ⊢; dsimp; omega)

theorem placeAskA_inv (s : Autotrader.State) (p : ℤ) (h : InvA s) :
    InvA (Autotrader.place_ask s p).1 := by
  rcases placeAskA_cases s p with hc | hc <;> rw [hc] <;>
    (unfold InvA at h ⊢; dsimp; omega)

theorem cancelStaleBidB_inv (s : Autotrader5.State) (p : ℤ) (h : InvB s) :
    InvB (Autotrader5.cancel_stale_bid s p).1 := by
  rcases cancelStaleBidB_cases s p with hc | hc <;> rw [hc] <;>
    (unfold InvB at h ⊢; dsimp; omega)

theorem cancelStaleAskB_inv (s : Autotrader5.State) (p : ℤ) (h : InvB s) :
    InvB (Autotrader5.cancel_stale_ask s p).1 := by
  rcases cancelStaleAskB_cases s p with hc | hc <;> rw [hc] <;>
    (unfold InvB at h ⊢; dsimp; omega)

theorem placeBidB_inv (s : Autotrader5.State) (p bv : ℤ) (h : InvB s) :
    InvB (Autotrader5.place_bid s p bv).1 := by
  rcases placeBidB_cases s p bv with hc | hc <;> rw [hc] <;>
    (unfold InvB at h ⊢; dsimp; omega)

theorem placeAskB_inv (s : Autotrader5.State) (p av : ℤ) (h : InvB s) :
    InvB (Autotrader5.place_ask s p av).1 := by
  rcases placeAskB_cases s p av with hc | hc <;> rw [hc] <;>
    (unfold InvB at h ⊢; dsimp; omega)

theorem onOrderFilledA_inv (s : Autotrader.State) (cid : ℕ) (p : ℤ) (v : ℕ) (h : InvA s) :
    InvA (Autotrader.on_order_filled_message s cid p v).1 := by
  simp only [Autotrader.on_order_filled_message]
  split_ifs <;> (unfold InvA at h ⊢; dsimp; omega)

theorem onOrderStatusA_inv (s : Autotrader.State) (cid : ℕ) (f r g : ℤ) (h : InvA s) :
    InvA (Autotrader.on_order_status_message s cid f r g).1 := by
  simp only [Autotrader.on_order_status_message]
  split_ifs <;> (unfold InvA at h ⊢; dsimp; omega)

theorem onErrorA_inv (s : Autotrader.State) (cid : ℕ) (h : InvA s) :
    InvA (Autotrader.on_error_message s cid).1 := by
  simp only [Autotrader.on_error_message]
  split_ifs with hc
  · exact onOrderStatusA_inv s cid 0 0 0 h
  · exact h

theorem onOrderBookA_inv (s : Autotrader.State) (instr seq : ℕ) (b : RTG.BookData) (h : InvA s) :
    InvA (Autotrader.on_order_book_update_message s instr seq b).1 := by
  simp only [Autotrader.on_order_book_update_message]
  split_ifs with hi
  · apply placeAskA_inv
    apply placeBidA_inv
    apply cancelStaleAskA_inv
    apply cancelStaleBidA_inv
    unfold InvA at h ⊢
    dsimp
    omega
  · exact h

theorem stepA_inv (s : Autotrader.State) (e : RTG.Event) (h : InvA s) : InvA (stepA s e).1 := by
  cases e with
  | errorMessage cid => exact onErrorA_inv s cid h
  | hedgeFilledMessage cid p v => exact h
  | orderFilledMessage cid p v => exact onOrderFilledA_inv s cid p v h
  | orderStatusMessage cid f r g => exact onOrderStatusA_inv s cid f r g h
  | orderBookUpdate i sq b => exact onOrderBookA_inv s i sq b h
  | tradeTicks i sq b => exact h

theorem onOrderFilledB_inv (s : Autotrader5.State) (cid : ℕ) (p : ℤ) (v : ℕ) (h : InvB s) :
    InvB (Autotrader5.on_order_filled_message s cid p v).1 := by
  simp only [Autotrader5.on_order_filled_message]
  split_ifs <;> (unfold InvB at h ⊢; dsimp; omega)

theorem onOrderStatusB_inv (s : Autotrader5.State) (cid : ℕ) (f r g : ℤ) (h : InvB s) :
    InvB (Autotrader5.on_order_status_message s cid f r g).1 := by
  simp only [Autotrader5.on_order_status_message]
  split_ifs <;> (unfold InvB at h ⊢; dsimp; omega)

theorem onErrorB_inv (s : Autotrader5.State) (cid : ℕ) (h : InvB s) :
    InvB (Autotrader5.on_error_message s cid).1 := by
  simp only [Autotrader5.on_error_message]
  split_ifs with hc
  · exact onOrderStatusB_inv s cid 0 0 0 h
  · exact h

theorem onOrderBookB_inv (s : Autotrader5.State) (instr seq : ℕ) (b : RTG.BookData) (h : InvB s) :
    InvB (Autotrader5.on_order_book_update_message s instr seq b).1 := by
  simp only [Autotrader5.on_order_book_update_message]
  split_ifs with hi
  · apply placeAskB_inv
    apply placeBidB_inv
    apply cancelStaleAskB_inv
    apply cancelStaleBidB_inv
    exact h
  · exact h

theorem stepB_inv (s : Autotrader5.State) (e : RTG.Event) (h : InvB s) : InvB (stepB s e).1 := by
  cases e with
  | errorMessage cid => exact onErrorB_inv s cid h
  | hedgeFilledMessage cid p v => exact h
  | orderFilledMessage cid p v => exact onOrderFilledB_inv s cid p v h
  | orderStatusMessage cid f r g => exact onOrderStatusB_inv s cid f r g h
  | orderBookUpdate i sq b => exact onOrderBookB_inv s i sq b h
  | tradeTicks i sq b => exact h

theorem execA_inv (events : List RTG.Event) : InvA (execA events) := by
  unfold execA
  have hgen : ∀ (l : List RTG.Event) (s : Autotrader.State), InvA s →
      InvA (l.foldl (fun s e => (stepA s e).1) s) := by
    intro l
    induction l with
    | nil => intro s hs; exact hs
    | cons e t ih =>
      intro s hs
      exact ih _ (stepA_inv s e hs)
  exact hgen events Autotrader.initialState invA_init

theorem execB_inv (events : List RTG.Event) : InvB (execB events) := by
  unfold execB
  have hgen : ∀ (l : List RTG.Event) (s : Autotrader5.State), InvB s →
      InvB (l.foldl (fun s e => (stepB s e).1) s) := by
    intro l
    induction l with
    | nil => intro s hs; exact hs
    | cons e t ih =>
      intro s hs
      exact ih _ (stepB_inv s e hs)
  exact hgen events Autotrader5.initialState invB_init

/-- C1: for every reachable state between event-handler invocations, starting
from the initial state with position 0, the net position satisfies
-POSITION_LIMIT <= position <= POSITION_LIMIT, in both the fill-and-kill
variant (A) and the good-for-day variant (B). -/
theorem C1_position_invariant (events : List RTG.Event) :
    (-RTG.POSITION_LIMIT ≤ (execA events).position ∧ (execA events).position ≤ RTG.POSITION_LIMIT)
  ∧ (-RTG.POSITION_LIMIT ≤ (execB events).position ∧ (execB events).position ≤ RTG.POSITION_LIMIT) := by
  have hA := execA_inv events
  have hB := execB_inv events
  unfold InvA at hA
  unfold InvB at hB
  exact ⟨⟨hA.2.2.2.2.1, hA.2.2.2.2.2⟩, ⟨hB.2.2.2.2.1, hB.2.2.2.2.2⟩⟩

/-- C9: in both variants, a HedgeFilled event leaves the whole controller
state unchanged and emits no command; in particular hedge fills do not reduce
the tracked net position. -/
theorem C9_hedge_filled_frame (sA : Autotrader.State) (sB : Autotrader5.State)
    (cid : ℕ) (price volume : ℤ) :
    stepA sA (RTG.Event.hedgeFilledMessage cid price volume) = (sA, [])
  ∧ stepB sB (RTG.Event.hedgeFilledMessage cid price volume) = (sB, []) :=
  ⟨rfl, rfl⟩

/-- C10: in both variants, an OrderBookUpdate event for any instrument other
than the tracked future leaves the whole controller state unchanged and emits
no command. -/
theorem C10_other_instrument_frame (sA : Autotrader.State) (sB : Autotrader5.State)
    (instrument seq : ℕ) (b : RTG.BookData) (h : instrument ≠ RTG.FUTURE) :
    stepA sA (RTG.Event.orderBookUpdate instrument seq b) = (sA, [])
  ∧ stepB sB (RTG.Event.orderBookUpdate instrument seq b) = (sB, []) := by
  constructor
  · show Autotrader.on_order_book_update_message sA instrument seq b = (sA, [])
    unfold Autotrader.on_order_book_update_message
    rw [if_neg h]
  · show Autotrader5.on_order_book_update_message sB instrument seq b = (sB, [])
    unfold Autotrader5.on_order_book_update_message
    rw [if_neg h]

theorem C10_witness :
    stepA Autotrader.initialState (RTG.Event.orderBookUpdate 1 5 scenario1Book)
        = (Autotrader.initialState, [])
  ∧ stepB Autotrader5.initialState (RTG.Event.orderBookUpdate 1 5 scenario1Book)
        = (Autotrader5.initialState, []) :=
  C10_other_instrument_frame Autotrader.initialState Autotrader5.initialState 1 5 scenario1Book
    (by decide)

/-- C3: in the fill-and-kill variant, a fill on an active bid whose volume
would push the position strictly above POSITION_LIMIT makes the controller
send a cancel for the triggering order, restores the position to its value
before the fill, and emits no hedge order; symmetrically on the ask side. -/
theorem C3_limit_breach_cancel (s : Autotrader.State) (cid : ℕ) (price : ℤ) (v : ℕ) :
    (cid ∈ s.bids → RTG.POSITION_LIMIT < s.position + v →
      Autotrader.on_order_filled_message s cid price v = (s, [RTG.Command.cancelOrder cid]))
  ∧ (cid ∉ s.bids → cid ∈ s.asks → s.position - v < -RTG.POSITION_LIMIT →
      Autotrader.on_order_filled_message s cid price v = (s, [RTG.Command.cancelOrder cid])) := by
  constructor
  · intro hmem hlim
    simp only [Autotrader.on_order_filled_message]
    rw [if_pos hmem, if_pos (show s.position + (v : ℤ) > RTG.POSITION_LIMIT by omega)]
    have hp : s.position + (v : ℤ) - v = s.position := by ring
    rw [hp]
  · intro hnb hmem hlim
    simp only [Autotrader.on_order_filled_message]
    rw [if_neg hnb, if_pos hmem, if_pos (show s.position - (v : ℤ) < -RTG.POSITION_LIMIT by omega)]
    have hp : s.position - (v : ℤ) + v = s.position := by ring
    rw [hp]

theorem C3_witness :
    Autotrader.on_order_filled_message
        { Autotrader.initialState with bids := {7}, position := 95 } 7 10000 10
      = ({ Autotrader.initialState with bids := {7}, position := 95 },
         [RTG.Command.cancelOrder 7])
  ∧ Autotrader.on_order_filled_message
        { Autotrader.initialState with asks := {8}, position := -95 } 8 10000 10
      = ({ Autotrader.initialState with asks := {8}, position := -95 },
         [RTG.Command.cancelOrder 8]) :=
  ⟨(C3_limit_breach_cancel _ 7 10000 10).1 (by decide) (by decide),
   (C3_limit_breach_cancel _ 8 10000 10).2 (by decide) (by decide) (by decide)⟩

/-- C8: in both variants, a fill that brings the position to exactly
+POSITION_LIMIT (or exactly -POSITION_LIMIT on the ask side) is an in-limit
fill: the position change is kept and a hedge order for the filled volume is
emitted at the worst permissible price; the limit-breach handling triggers
only when the limit is strictly exceeded. -/
theorem C8_exact_limit_fill (sA : Autotrader.State) (sB : Autotrader5.State)
    (cid : ℕ) (price : ℤ) (v : ℕ) :
    (cid ∈ sA.bids → sA.position + v = RTG.POSITION_LIMIT →
      Autotrader.on_order_filled_message sA cid price v
        = ({ sA with position := RTG.POSITION_LIMIT, next_order_id := sA.next_order_id + 1 },
           [RTG.Command.hedgeOrder sA.next_order_id RTG.Side.ask RTG.MIN_BID_NEAREST_TICK (v : ℤ)]))
  ∧ (cid ∉ sA.bids → cid ∈ sA.asks → sA.position - v = -RTG.POSITION_LIMIT →
      Autotrader.on_order_filled_message sA cid price v
        = ({ sA with position := -RTG.POSITION_LIMIT, next_order_id := sA.next_order_id + 1 },
           [RTG.Command.hedgeOrder sA.next_order_id RTG.Side.bid RTG.MAX_ASK_NEAREST_TICK (v : ℤ)]))
  ∧ (Autotrader5.dictContains sB.bids cid = true → sB.position + v = RTG.POSITION_LIMIT →
      Autotrader5.on_order_filled_message sB cid price v
        = ({ sB with position := RTG.POSITION_LIMIT, next_order_id := sB.next_order_id + 1 },
           [RTG.Command.hedgeOrder sB.next_order_id RTG.Side.ask RTG.MIN_BID_NEAREST_TICK (v : ℤ)]))
  ∧ (Autotrader5.dictContains sB.bids cid = false → Autotrader5.dictContains sB.asks cid = true →
      sB.position - v = -RTG.POSITION_LIMIT →
      Autotrader5.on_order_filled_message sB cid price v
        = ({ sB with position := -RTG.POSITION_LIMIT, next_order_id := sB.next_order_id + 1 },
           [RTG.Command.hedgeOrder sB.next_order_id RTG.Side.bid RTG.MAX_ASK_NEAREST_TICK (v : ℤ)])) := by
  refine ⟨?hA1, ?hA2, ?hB1, ?hB2⟩
  · intro hmem hlim
    simp only [Autotrader.on_order_filled_message]
    rw [if_pos hmem, if_neg (show ¬(sA.position + (v : ℤ) > RTG.POSITION_LIMIT) by omega), hlim]
  · intro hnb hmem hlim
    simp only [Autotrader.on_order_filled_message]
    rw [if_neg hnb, if_pos hmem,
      if_neg (show ¬(sA.position - (v : ℤ) < -RTG.POSITION_LIMIT) by omega), hlim]
  · intro hmem hlim
    simp only [Autotrader5.on_order_filled_message]
    rw [if_pos hmem, if_neg (show ¬(sB.position + (v : ℤ) > RTG.POSITION_LIMIT) by omega), hlim]
  · intro hnb hmem hlim
    simp only [Autotrader5.on_order_filled_message]
    rw [if_neg (show ¬(Autotrader5.dictContains sB.bids cid = true) by simp [hnb]), if_pos hmem,
      if_neg (show ¬(sB.position - (v : ℤ) < -RTG.POSITION_LIMIT) by omega), hlim]

theorem C8_witness :
    Autotrader.on_order_filled_message
        { Autotrader.initialState with bids := {3}, position := 90 } 3 10000 10
      = ({ { Autotrader.initialState with bids := {3}, position := 90 } with
            position := RTG.POSITION_LIMIT, next_order_id := 2 },
         [RTG.Command.hedgeOrder 1 RTG.Side.ask RTG.MIN_BID_NEAREST_TICK 10])
  ∧ Autotrader5.on_order_filled_message
        { Autotrader5.initialState with asks := [(4, ⟨10000, 10⟩)], position := -90 } 4 10000 10
      = ({ { Autotrader5.initialState with asks := [(4, ⟨10000, 10⟩)], position := -90 } with
            position := -RTG.POSITION_LIMIT, next_order_id := 2 },
         [RTG.Command.hedgeOrder 1 RTG.Side.bid RTG.MAX_ASK_NEAREST_TICK 10]) :=
  ⟨(C8_exact_limit_fill { Autotrader.initialState with bids := {3}, position := 90 }
        Autotrader5.initialState 3 10000 10).1 (by decide) (by decide),
   (C8_exact_limit_fill Autotrader.initialState
        { Autotrader5.initialState with asks := [(4, ⟨10000, 10⟩)], position := -90 }
        4 10000 10).2.2.2 (by decide) (by decide) (by decide)⟩

theorem dictPop_not_contains (d : Autotrader5.Dict) (c : ℕ) :
    Autotrader5.dictContains (Autotrader5.dictPop d c) c = false := by
  unfold Autotrader5.dictContains Autotrader5.dictPop
  rw [List.any_eq_false]
  intro p hp
  rw [List.mem_filter] at hp
  simpa using hp.2

theorem dictPop_of_not_contains (d : Autotrader5.Dict) (c : ℕ)
    (h : Autotrader5.dictContains d c = false) : Autotrader5.dictPop d c = d := by
  unfold Autotrader5.dictContains at h
  unfold Autotrader5.dictPop
  apply List.filter_eq_self.mpr
  intro a ha
  rw [List.any_eq_false] at h
  simpa using h a ha

theorem statusA_noop (s : Autotrader.State) (c : ℕ) (f g : ℤ)
    (hb : c ∉ s.bids) (ha : c ∉ s.asks) (h1 : c ≠ s.bid_id) (h2 : c ≠ s.ask_id) :
    Autotrader.on_order_status_message s c f 0 g = (s, []) := by
  simp only [Autotrader.on_order_status_message]
  rw [if_pos True.intro, if_neg h1, if_neg h2, Finset.erase_eq_of_not_mem hb,
    Finset.erase_eq_of_not_mem ha]

theorem statusA_retires (s : Autotrader.State) (c : ℕ) (f g : ℤ) (hc : c ≠ 0) (h : InvA s) :
    c ∉ (Autotrader.on_order_status_message s c f 0 g).1.bids
  ∧ c ∉ (Autotrader.on_order_status_message s c f 0 g).1.asks
  ∧ c ≠ (Autotrader.on_order_status_message s c f 0 g).1.bid_id
  ∧ c ≠ (Autotrader.on_order_status_message s c f 0 g).1.ask_id := by
  unfold InvA at h
  simp only [Autotrader.on_order_status_message]
  rw [if_pos True.intro]
  by_cases h1 : c = s.bid_id
  · rw [if_pos h1]
    dsimp
    exact ⟨Finset.not_mem_erase c _, Finset.not_mem_erase c _, hc, by omega⟩
  · rw [if_neg h1]
    by_cases h2 : c = s.ask_id
    · rw [if_pos h2]
      dsimp
      exact ⟨Finset.not_mem_erase c _, Finset.not_mem_erase c _, h1, hc⟩
    · rw [if_neg h2]
      dsimp
      exact ⟨Finset.not_mem_erase c _, Finset.not_mem_erase c _, h1, h2⟩

theorem statusB_noop (s : Autotrader5.State) (c : ℕ) (f g : ℤ)
    (hb : Autotrader5.dictContains s.bids c = false)
    (ha : Autotrader5.dictContains s.asks c = false)
    (h1 : c ≠ s.bid_id) (h2 : c ≠ s.ask_id) :
    Autotrader5.on_order_status_message s c f 0 g = (s, []) := by
  simp only [Autotrader5.on_order_status_message]
  rw [if_pos True.intro, if_neg h1, if_neg h2, dictPop_of_not_contains _ _ hb,
    dictPop_of_not_contains _ _ ha]

theorem statusB_retires (s : Autotrader5.State) (c : ℕ) (f g : ℤ) (hc : c ≠ 0) (h : InvB s) :
    Autotrader5.dictContains (Autotrader5.on_order_status_message s c f 0 g).1.bids c = false
  ∧ Autotrader5.dictContains (Autotrader5.on_order_status_message s c f 0 g).1.asks c = false
  ∧ c ≠ (Autotrader5.on_order_status_message s c f 0 g).1.bid_id
  ∧ c ≠ (Autotrader5.on_order_status_message s c f 0 g).1.ask_id := by
  unfold InvB at h
  simp only [Autotrader5.on_order_status_message]
  rw [if_pos True.intro]
  by_cases h1 : c = s.bid_id
  · rw [if_pos h1]
    dsimp
    exact ⟨dictPop_not_contains _ c, dictPop_not_contains _ c, hc, by omega⟩
  · rw [if_neg h1]
    by_cases h2 : c = s.ask_id
    · rw [if_pos h2]
      dsimp
      exact ⟨dictPop_not_contains _ c, dictPop_not_contains _ c, h1, hc⟩
    · rw [if_neg h2]
      dsimp
      exact ⟨dictPop_not_contains _ c, dictPop_not_contains _ c, h1, h2⟩

/-- C7: in both variants, once an order id has been retired by a terminal
(remaining = 0) status event in any reachable state, a second terminal status
event for the same nonzero id is a no-op: the state is unchanged and no
command is emitted. -/
theorem C7_duplicate_terminal_status_noop (events : List RTG.Event) (c : ℕ)
    (f1 g1 f2 g2 : ℤ) (hc : c ≠ 0) :
    (Autotrader.on_order_status_message
        (Autotrader.on_order_status_message (execA events) c f1 0 g1).1 c f2 0 g2
      = ((Autotrader.on_order_status_message (execA events) c f1 0 g1).1, []))
  ∧ (Autotrader5.on_order_status_message
        (Autotrader5.on_order_status_message (execB events) c f1 0 g1).1 c f2 0 g2
      = ((Autotrader5.on_order_status_message (execB events) c f1 0 g1).1, [])) := by
  have hA := statusA_retires (execA events) c f1 g1 hc (execA_inv events)
  have hB := statusB_retires (execB events) c f1 g1 hc (execB_inv events)
  exact ⟨statusA_noop _ c f2 g2 hA.1 hA.2.1 hA.2.2.1 hA.2.2.2,
    statusB_noop _ c f2 g2 hB.1 hB.2.1 hB.2.2.1 hB.2.2.2⟩

theorem C7_witness :
    (Autotrader.on_order_status_message
        (Autotrader.on_order_status_message (execA []) 5 0 0 0).1 5 0 0 0
      = ((Autotrader.on_order_status_message (execA []) 5 0 0 0).1, []))
  ∧ (Autotrader5.on_order_status_message
        (Autotrader5.on_order_status_message (execB []) 5 0 0 0).1 5 0 0 0
      = ((Autotrader5.on_order_status_message (execB []) 5 0 0 0).1, [])) :=
  C7_duplicate_terminal_status_noop [] 5 0 0 0 0 (by decide)

theorem C5_counterexample :
    Autotrader.trend_adjustment 100 0 200 = -100
  ∧ ((Int.sign 0 : ℚ) * (100 / 100) * (200 / 2) = 0)
  ∧ Autotrader.trend_adjustment 100 0 200 ≠ (Int.sign 0 : ℚ) * (100 / 100) * (200 / 2) := by
  refine ⟨?h1, ?h2, ?h3⟩ <;> norm_num [Autotrader.trend_adjustment]

/-- C5 amended: with the trend adjustment enabled and a nonzero stored
trading volume, the adjustment equals sign(trend) * (tradingVolume/100) *
(spread/2) whenever the trend signal is nonzero; when the trend signal is 0
the code subtracts (tradingVolume/100) * (spread/2) instead of contributing
zero (the zero-trend case falls into the subtracting else-branch). -/
theorem C5_trend_adjustment_amended (tv spread : ℚ) (trend : ℤ) (htv : tv ≠ 0) :
    (trend ≠ 0 →
      Autotrader.trend_adjustment tv trend spread
        = (Int.sign trend : ℚ) * (tv / 100) * (spread / 2))
  ∧ (trend = 0 →
      Autotrader.trend_adjustment tv trend spread = -((tv / 100) * (spread / 2))) := by
  constructor
  · intro ht
    unfold Autotrader.trend_adjustment
    rw [if_pos htv]
    rcases lt_or_gt_of_ne ht with hneg | hpos
    · rw [if_neg (show ¬(trend > 0) by omega), Int.sign_eq_neg_one_iff_neg.mpr hneg]
      push_cast
      ring
    · rw [if_pos hpos, Int.sign_eq_one_iff_pos.mpr hpos]
      push_cast
      ring
  · intro ht
    subst ht
    unfold Autotrader.trend_adjustment
    rw [if_pos htv, if_neg (show ¬((0:ℤ) > 0) by omega)]
    ring

theorem C5_witness :
    Autotrader.trend_adjustment 100 1 200 = (Int.sign 1 : ℚ) * (100 / 100) * (200 / 2)
  ∧ Autotrader.trend_adjustment 100 0 200 = -((100 / 100 : ℚ) * (200 / 2)) :=
  ⟨(C5_trend_adjustment_amended 100 200 1 (by norm_num)).1 (by decide),
   (C5_trend_adjustment_amended 100 200 0 (by norm_num)).2 rfl⟩

theorem quote_prices_scenario1 :
    Autotrader.quote_prices 0 0 0 scenario1Book = (10000, 10000) := by
  norm_num [Autotrader.quote_prices, Autotrader.trend_adjustment, RTG.roundToTick,
    scenario1Book, RTG.MAX_ASK_NEAREST_TICK, RTG.MIN_BID_NEAREST_TICK, RTG.MAXIMUM_ASK,
    RTG.MINIMUM_BID, RTG.TICK_SIZE_IN_CENTS, Autotrader.LOT_SIZE, Int.fdiv]

theorem C4_counterexample :
    Autotrader.quote_prices 0 0 0 scenario1Book = (10000, 10000)
  ∧ ¬((Autotrader.quote_prices 0 0 0 scenario1Book).1 < 10000
        ∧ 10002 < (Autotrader.quote_prices 0 0 0 scenario1Book).2) := by
  refine ⟨quote_prices_scenario1, ?hn⟩
  rw [quote_prices_scenario1]
  norm_num

/-- C4 amended: on the snapshot with best bid 10000 and best ask 10002, a
flat position and no prior trend state, the pricing engine produces bid price
10000 and ask price 10000; both are integer multiples of the tick size and
within the legal price bounds, but because the 100-cent tick rounds both
quotes down to the same tick, the bid is not strictly below the best bid and
the ask is not strictly above the best ask. -/
theorem C4_scenario1_quotes_amended :
    Autotrader.quote_prices 0 0 0 scenario1Book = (10000, 10000)
  ∧ RTG.TICK_SIZE_IN_CENTS ∣ (Autotrader.quote_prices 0 0 0 scenario1Book).1
  ∧ RTG.TICK_SIZE_IN_CENTS ∣ (Autotrader.quote_prices 0 0 0 scenario1Book).2
  ∧ RTG.MINIMUM_BID ≤ (Autotrader.quote_prices 0 0 0 scenario1Book).1
  ∧ (Autotrader.quote_prices 0 0 0 scenario1Book).2 ≤ RTG.MAXIMUM_ASK
  ∧ ¬((Autotrader.quote_prices 0 0 0 scenario1Book).1 < 10000)
  ∧ ¬(10002 < (Autotrader.quote_prices 0 0 0 scenario1Book).2) := by
  rw [quote_prices_scenario1]
  refine ⟨rfl, ?d1, ?d2, ?d3, ?d4, ?d5, ?d6⟩ <;> decide

theorem stepB_zeroDepth_output :
    (stepB Autotrader5.initialState (RTG.Event.orderBookUpdate RTG.FUTURE 1 zeroDepthBook)).2
      = [RTG.Command.insertOrder 1 RTG.Side.bid 9900 0 RTG.Lifespan.gfd,
         RTG.Command.insertOrder 2 RTG.Side.ask 10100 14 RTG.Lifespan.gfd] := by
  norm_num [stepB, Autotrader5.on_order_book_update_message, Autotrader5.quote_prices,
    Autotrader5.cancel_stale_bid, Autotrader5.cancel_stale_ask, Autotrader5.place_bid,
    Autotrader5.place_ask, Autotrader5.outstandingVolume, Autotrader5.dictStore,
    Autotrader5.dictPop, Autotrader5.initialState, zeroDepthBook, RTG.roundToTick,
    RTG.MAX_ASK_NEAREST_TICK, RTG.MIN_BID_NEAREST_TICK, RTG.MAXIMUM_ASK, RTG.MINIMUM_BID,
    RTG.TICK_SIZE_IN_CENTS, RTG.POSITION_LIMIT, RTG.FUTURE, Autotrader5.LOT_SIZE, Int.fdiv]

theorem C6_counterexample :
    RTG.Command.insertOrder 1 RTG.Side.bid 9900 0 RTG.Lifespan.gfd
      ∈ (stepB Autotrader5.initialState (RTG.Event.orderBookUpdate RTG.FUTURE 1 zeroDepthBook)).2 := by
  rw [stepB_zeroDepth_output]
  exact List.mem_cons_self _ _

theorem onOrderBookB_bid_insert (s : Autotrader5.State) (seq : ℕ) (b : RTG.BookData)
    (hb : s.bid_id = 0) (hp : s.position < RTG.POSITION_LIMIT) :
    RTG.Command.insertOrder s.next_order_id RTG.Side.bid (Autotrader5.quote_prices s.position b).1
        (min 14 (max 0 (min (RTG.POSITION_LIMIT - s.position - Autotrader5.outstandingVolume s.bids) b.bid_volume0)))
        RTG.Lifespan.gfd
      ∈ (Autotrader5.on_order_book_update_message s RTG.FUTURE seq b).2 := by
  simp only [Autotrader5.on_order_book_update_message]
  rw [if_pos True.intro]
  have hr1 : Autotrader5.cancel_stale_bid s (Autotrader5.quote_prices s.position b).1 = (s, []) := by
    unfold Autotrader5.cancel_stale_bid
    rw [if_neg (by simp [hb])]
  rw [hr1]
  rcases cancelStaleAskB_cases s (Autotrader5.quote_prices s.position b).2 with h2 | h2 <;>
    rw [h2] <;>
    simp [Autotrader5.place_bid, hb, hp, List.mem_append]

theorem onOrderBookB_ask_insert (s : Autotrader5.State) (seq : ℕ) (b : RTG.BookData)
    (ha : s.ask_id = 0) (hp : -RTG.POSITION_LIMIT < s.position) :
    ∃ n, RTG.Command.insertOrder n RTG.Side.ask (Autotrader5.quote_prices s.position b).2
        (min 14 (max 0 (min (RTG.POSITION_LIMIT + s.position - Autotrader5.outstandingVolume s.asks) b.ask_volume0)))
        RTG.Lifespan.gfd
      ∈ (Autotrader5.on_order_book_update_message s RTG.FUTURE seq b).2 := by
  simp only [Autotrader5.on_order_book_update_message]
  rw [if_pos True.intro]
  rcases cancelStaleBidB_cases s (Autotrader5.quote_prices s.position b).1 with h1 | h1
  · rw [h1]
    have hr2 : Autotrader5.cancel_stale_ask
        ({ s with bid_id := 0 } : Autotrader5.State) (Autotrader5.quote_prices s.position b).2
        = ({ s with bid_id := 0 }, []) := by
      unfold Autotrader5.cancel_stale_ask
      rw [if_neg (by simp [ha])]
    rw [hr2]
    rcases placeBidB_cases ({ s with bid_id := 0 } : Autotrader5.State)
        (Autotrader5.quote_prices s.position b).1 b.bid_volume0 with h3 | h3 <;> rw [h3]
    · refine ⟨s.next_order_id + 1, ?m1⟩
      simp [Autotrader5.place_ask, ha, hp, List.mem_append]
    · refine ⟨s.next_order_id, ?m2⟩
      simp [Autotrader5.place_ask, ha, hp, List.mem_append]
  · rw [h1]
    have hr2 : Autotrader5.cancel_stale_ask s (Autotrader5.quote_prices s.position b).2
        = (s, []) := by
      unfold Autotrader5.cancel_stale_ask
      rw [if_neg (by simp [ha])]
    rw [hr2]
    rcases placeBidB_cases s (Autotrader5.quote_prices s.position b).1 b.bid_volume0
        with h3 | h3 <;> rw [h3]
    · refine ⟨s.next_order_id + 1, ?m3⟩
      simp [Autotrader5.place_ask, ha, hp, List.mem_append]
    · refine ⟨s.next_order_id, ?m4⟩
      simp [Autotrader5.place_ask, ha, hp, List.mem_append]

/-- C6 amended: in the good-for-day variant, when there is no active bid and
position < POSITION_LIMIT, the bid order size equals the minimum of the fixed
cap 14, POSITION_LIMIT - position - outstanding bid volume, and top-of-book
bid depth, clamped to be nonnegative; however the insert-bid command is sent
unconditionally in that situation, with exactly that size, even when the size
is 0 (there is no size > 0 guard in the code); symmetrically for the ask
side. -/
theorem C6_gfd_sizing_amended (s : Autotrader5.State) (seq : ℕ) (b : RTG.BookData) :
    (min 14 (max 0 (min (RTG.POSITION_LIMIT - s.position - Autotrader5.outstandingVolume s.bids) b.bid_volume0))
        = max 0 (min 14 (min (RTG.POSITION_LIMIT - s.position - Autotrader5.outstandingVolume s.bids) b.bid_volume0)))
  ∧ (s.bid_id = 0 → s.position < RTG.POSITION_LIMIT →
      RTG.Command.insertOrder s.next_order_id RTG.Side.bid (Autotrader5.quote_prices s.position b).1
          (min 14 (max 0 (min (RTG.POSITION_LIMIT - s.position - Autotrader5.outstandingVolume s.bids) b.bid_volume0)))
          RTG.Lifespan.gfd
        ∈ (Autotrader5.on_order_book_update_message s RTG.FUTURE seq b).2)
  ∧ (s.ask_id = 0 → -RTG.POSITION_LIMIT < s.position →
      ∃ n, RTG.Command.insertOrder n RTG.Side.ask (Autotrader5.quote_prices s.position b).2
          (min 14 (max 0 (min (RTG.POSITION_LIMIT + s.position - Autotrader5.outstandingVolume s.asks) b.ask_volume0)))
          RTG.Lifespan.gfd
        ∈ (Autotrader5.on_order_book_update_message s RTG.FUTURE seq b).2) := by
  refine ⟨by omega, ?hbid, ?hask⟩
  · intro hb hp
    exact onOrderBookB_bid_insert s seq b hb hp
  · intro ha hp
    exact onOrderBookB_ask_insert s seq b ha hp

theorem C6_witness :
    RTG.Command.insertOrder 1 RTG.Side.bid
        (Autotrader5.quote_prices 0 zeroDepthBook).1 0 RTG.Lifespan.gfd
      ∈ (Autotrader5.on_order_book_update_message Autotrader5.initialState RTG.FUTURE 1 zeroDepthBook).2
  ∧ ∃ n, RTG.Command.insertOrder n RTG.Side.ask
        (Autotrader5.quote_prices 0 zeroDepthBook).2 14 RTG.Lifespan.gfd
      ∈ (Autotrader5.on_order_book_update_message Autotrader5.initialState RTG.FUTURE 1 zeroDepthBook).2 := by
  have h := C6_gfd_sizing_amended Autotrader5.initialState 1 zeroDepthBook
  have h1 := h.2.1 rfl (by decide)
  have h2 := h.2.2 rfl (by decide)
  constructor
  · simpa [Autotrader5.initialState, Autotrader5.outstandingVolume, zeroDepthBook] using h1
  · simpa [Autotrader5.initialState, Autotrader5.outstandingVolume, zeroDepthBook] using h2

theorem stepA_wideBook_output :
    (stepA Autotrader.initialState (RTG.Event.orderBookUpdate RTG.FUTURE 1 wideBook)).2
      = [RTG.Command.insertOrder 1 RTG.Side.bid (-100) 10 RTG.Lifespan.fillAndKill,
         RTG.Command.insertOrder 2 RTG.Side.ask 2147483600 10 RTG.Lifespan.fillAndKill] := by
  norm_num [stepA, Autotrader.on_order_book_update_message, Autotrader.quote_prices,
    Autotrader.trend_adjustment, Autotrader.trend_update, Autotrader.cancel_stale_bid,
    Autotrader.cancel_stale_ask, Autotrader.place_bid, Autotrader.place_ask,
    Autotrader.initialState, wideBook, RTG.roundToTick, RTG.MAX_ASK_NEAREST_TICK,
    RTG.MIN_BID_NEAREST_TICK, RTG.MAXIMUM_ASK, RTG.MINIMUM_BID, RTG.TICK_SIZE_IN_CENTS,
    RTG.POSITION_LIMIT, RTG.FUTURE, Autotrader.LOT_SIZE, Int.fdiv]

theorem C2_counterexample :
    RTG.Command.insertOrder 1 RTG.Side.bid (-100) 10 RTG.Lifespan.fillAndKill
      ∈ (stepA Autotrader.initialState (RTG.Event.orderBookUpdate RTG.FUTURE 1 wideBook)).2
  ∧ ¬ priceInRange (RTG.Command.insertOrder 1 RTG.Side.bid (-100) 10 RTG.Lifespan.fillAndKill) := by
  constructor
  · rw [stepA_wideBook_output]
    exact List.mem_cons_self _ _
  · intro hr
    have h1 := hr.1
    rw [RTG.MINIMUM_BID] at h1
    omega

theorem cancelStaleBidA_out (s : Autotrader.State) (p : ℤ) (c : RTG.Command)
    (h : c ∈ (Autotrader.cancel_stale_bid s p).2) : ∃ j, c = RTG.Command.cancelOrder j := by
  rcases cancelStaleBidA_cases s p with hc | hc <;> rw [hc] at h <;> simp at h
  exact ⟨s.bid_id, h⟩

theorem cancelStaleAskA_out (s : Autotrader.State) (p : ℤ) (c : RTG.Command)
    (h : c ∈ (Autotrader.cancel_stale_ask s p).2) : ∃ j, c = RTG.Command.cancelOrder j := by
  rcases cancelStaleAskA_cases s p with hc | hc <;> rw [hc] at h <;> simp at h
  exact ⟨s.ask_id, h⟩

theorem placeBidA_out (s : Autotrader.State) (p : ℤ) (c : RTG.Command)
    (h : c ∈ (Autotrader.place_bid s p).2) :
    ∃ j v, c = RTG.Command.insertOrder j RTG.Side.bid p v RTG.Lifespan.fillAndKill := by
  rcases placeBidA_cases s p with hc | hc <;> rw [hc] at h <;> simp at h
  exact ⟨s.next_order_id, min (RTG.POSITION_LIMIT - s.position) Autotrader.LOT_SIZE, h⟩

theorem placeAskA_out (s : Autotrader.State) (p : ℤ) (c : RTG.Command)
    (h : c ∈ (Autotrader.place_ask s p).2) :
    ∃ j v, c = RTG.Command.insertOrder j RTG.Side.ask p v RTG.Lifespan.fillAndKill := by
  rcases placeAskA_cases s p with hc | hc <;> rw [hc] at h <;> simp at h
  exact ⟨s.next_order_id, min (RTG.POSITION_LIMIT + s.position) Autotrader.LOT_SIZE, h⟩

theorem cancelStaleBidB_out (s : Autotrader5.State) (p : ℤ) (c : RTG.Command)
    (h : c ∈ (Autotrader5.cancel_stale_bid s p).2) : ∃ j, c = RTG.Command.cancelOrder j := by
  rcases cancelStaleBidB_cases s p with hc | hc <;> rw [hc] at h <;> simp at h
  exact ⟨s.bid_id, h⟩

theorem cancelStaleAskB_out (s : Autotrader5.State) (p : ℤ) (c : RTG.Command)
    (h : c ∈ (Autotrader5.cancel_stale_ask s p).2) : ∃ j, c = RTG.Command.cancelOrder j := by
  rcases cancelStaleAskB_cases s p with hc | hc <;> rw [hc] at h <;> simp at h
  exact ⟨s.ask_id, h⟩

theorem placeBidB_out (s : Autotrader5.State) (p bv : ℤ) (c : RTG.Command)
    (h : c ∈ (Autotrader5.place_bid s p bv).2) :
    ∃ j v, c = RTG.Command.insertOrder j RTG.Side.bid p v RTG.Lifespan.gfd := by
  rcases placeBidB_cases s p bv with hc | hc <;> rw [hc] at h <;> simp at h
  exact ⟨s.next_order_id, _, h⟩

theorem placeAskB_out (s : Autotrader5.State) (p av : ℤ) (c : RTG.Command)
    (h : c ∈ (Autotrader5.place_ask s p av).2) :
    ∃ j v, c = RTG.Command.insertOrder j RTG.Side.ask p v RTG.Lifespan.gfd := by
  rcases placeAskB_cases s p av with hc | hc <;> rw [hc] at h <;> simp at h
  exact ⟨s.next_order_id, _, h⟩

theorem onOrderStatusA_out_nil (s : Autotrader.State) (cid : ℕ) (f r g : ℤ) :
    (Autotrader.on_order_status_message s cid f r g).2 = [] := by
  simp only [Autotrader.on_order_status_message]
  split_ifs <;> rfl

theorem onErrorA_out_nil (s : Autotrader.State) (cid : ℕ) :
    (Autotrader.on_error_message s cid).2 = [] := by
  simp only [Autotrader.on_error_message]
  split_ifs
  · exact onOrderStatusA_out_nil s cid 0 0 0
  · rfl

theorem onOrderStatusB_out_nil (s : Autotrader5.State) (cid : ℕ) (f r g : ℤ) :
    (Autotrader5.on_order_status_message s cid f r g).2 = [] := by
  simp only [Autotrader5.on_order_status_message]
  split_ifs <;> rfl

theorem onErrorB_out_nil (s : Autotrader5.State) (cid : ℕ) :
    (Autotrader5.on_error_message s cid).2 = [] := by
  simp only [Autotrader5.on_error_message]
  split_ifs
  · exact onOrderStatusB_out_nil s cid 0 0 0
  · rfl

theorem onOrderFilledA_out (s : Autotrader.State) (cid : ℕ) (p : ℤ) (v : ℕ) (c : RTG.Command)
    (h : c ∈ (Autotrader.on_order_filled_message s cid p v).2) :
    (∃ j, c = RTG.Command.cancelOrder j)
  ∨ c = RTG.Command.hedgeOrder s.next_order_id RTG.Side.ask RTG.MIN_BID_NEAREST_TICK (v : ℤ)
  ∨ c = RTG.Command.hedgeOrder s.next_order_id RTG.Side.bid RTG.MAX_ASK_NEAREST_TICK (v : ℤ) := by
  simp only [Autotrader.on_order_filled_message] at h
  split_ifs at h <;> simp at h <;> tauto

theorem onOrderFilledB_out (s : Autotrader5.State) (cid : ℕ) (p : ℤ) (v : ℕ) (c : RTG.Command)
    (h : c ∈ (Autotrader5.on_order_filled_message s cid p v).2) :
    c = RTG.Command.hedgeOrder s.next_order_id RTG.Side.ask RTG.MIN_BID_NEAREST_TICK (v : ℤ)
  ∨ c = RTG.Command.hedgeOrder s.next_order_id RTG.Side.bid RTG.MAX_ASK_NEAREST_TICK (v : ℤ) := by
  simp only [Autotrader5.on_order_filled_message] at h
  split_ifs at h <;> simp at h <;> tauto

theorem quotePricesA_spec (position : ℤ) (tv : ℚ) (tr : ℤ) (b : RTG.BookData) :
    ∃ braw araw : ℚ,
      Autotrader.quote_prices position tv tr b
        = (RTG.roundToTick
              (min ((RTG.MAX_ASK_NEAREST_TICK - (b.ask_price0 - b.bid_price0) : ℤ) : ℚ)
                (max ((RTG.MIN_BID_NEAREST_TICK : ℤ) : ℚ) braw)),
           RTG.roundToTick
              (min ((RTG.MAX_ASK_NEAREST_TICK : ℤ) : ℚ)
                (max ((RTG.MIN_BID_NEAREST_TICK + (b.ask_price0 - b.bid_price0) : ℤ) : ℚ) araw))) :=
  ⟨_, _, rfl⟩

theorem quotePricesB_spec (position : ℤ) (b : RTG.BookData) :
    ∃ braw araw : ℚ,
      Autotrader5.quote_prices position b
        = (RTG.roundToTick
              (min ((RTG.MAX_ASK_NEAREST_TICK - (b.ask_price2 - b.bid_price2) : ℤ) : ℚ)
                (max ((RTG.MIN_BID_NEAREST_TICK : ℤ) : ℚ) braw)),
           RTG.roundToTick
              (min ((RTG.MAX_ASK_NEAREST_TICK : ℤ) : ℚ)
                (max ((RTG.MIN_BID_NEAREST_TICK + (b.ask_price2 - b.bid_price2) : ℤ) : ℚ) araw))) :=
  ⟨_, _, rfl⟩

theorem onOrderBookA_out (s : Autotrader.State) (i seq : ℕ) (b : RTG.BookData) (c : RTG.Command)
    (h : c ∈ (Autotrader.on_order_book_update_message s i seq b).2) :
    (∃ j, c = RTG.Command.cancelOrder j)
  ∨ (∃ j v, c = RTG.Command.insertOrder j RTG.Side.bid
        (Autotrader.quote_prices s.position s.trading_volume s.price_trend b).1 v
        RTG.Lifespan.fillAndKill)
  ∨ (∃ j v, c = RTG.Command.insertOrder j RTG.Side.ask
        (Autotrader.quote_prices s.position s.trading_volume s.price_trend b).2 v
        RTG.Lifespan.fillAndKill) := by
  simp only [Autotrader.on_order_book_update_message] at h
  by_cases hi : i = RTG.FUTURE
  · rw [if_pos hi] at h
    rw [List.mem_append, List.mem_append, List.mem_append] at h
    rcases h with ((h | h) | h) | h
    · exact Or.inl (cancelStaleBidA_out _ _ c h)
    · exact Or.inl (cancelStaleAskA_out _ _ c h)
    · exact Or.inr (Or.inl (placeBidA_out _ _ c h))
    · exact Or.inr (Or.inr (placeAskA_out _ _ c h))
  · rw [if_neg hi] at h
    simp at h

theorem onOrderBookB_out (s : Autotrader5.State) (i seq : ℕ) (b : RTG.BookData) (c : RTG.Command)
    (h : c ∈ (Autotrader5.on_order_book_update_message s i seq b).2) :
    (∃ j, c = RTG.Command.cancelOrder j)
  ∨ (∃ j v, c = RTG.Command.insertOrder j RTG.Side.bid
        (Autotrader5.quote_prices s.position b).1 v RTG.Lifespan.gfd)
  ∨ (∃ j v, c = RTG.Command.insertOrder j RTG.Side.ask
        (Autotrader5.quote_prices s.position b).2 v RTG.Lifespan.gfd) := by
  simp only [Autotrader5.on_order_book_update_message] at h
  by_cases hi : i = RTG.FUTURE
  · rw [if_pos hi] at h
    rw [List.mem_append, List.mem_append, List.mem_append] at h
    rcases h with ((h | h) | h) | h
    · exact Or.inl (cancelStaleBidB_out _ _ c h)
    · exact Or.inl (cancelStaleAskB_out _ _ c h)
    · exact Or.inr (Or.inl (placeBidB_out _ _ _ c h))
    · exact Or.inr (Or.inr (placeAskB_out _ _ _ c h))
  · rw [if_neg hi] at h
    simp at h

theorem insert_bid_price_in_range (spread : ℤ) (braw : ℚ) (h0 : 0 ≤ spread)
    (h1 : spread ≤ RTG.MAX_ASK_NEAREST_TICK - RTG.MIN_BID_NEAREST_TICK) :
    RTG.MINIMUM_BID ≤ RTG.roundToTick
        (min ((RTG.MAX_ASK_NEAREST_TICK - spread : ℤ) : ℚ)
          (max ((RTG.MIN_BID_NEAREST_TICK : ℤ) : ℚ) braw))
  ∧ RTG.roundToTick
        (min ((RTG.MAX_ASK_NEAREST_TICK - spread : ℤ) : ℚ)
          (max ((RTG.MIN_BID_NEAREST_TICK : ℤ) : ℚ) braw)) ≤ RTG.MAXIMUM_ASK := by
  have h := bid_clamp_in_range spread braw h0 h1
  rw [min_bid_nearest_tick_eq, max_ask_nearest_tick_eq] at h
  rw [min_bid_nearest_tick_eq, max_ask_nearest_tick_eq, RTG.MINIMUM_BID, RTG.MAXIMUM_ASK]
  omega

theorem insert_ask_price_in_range (spread : ℤ) (araw : ℚ) (h0 : 0 ≤ spread)
    (h1 : spread ≤ RTG.MAX_ASK_NEAREST_TICK - RTG.MIN_BID_NEAREST_TICK) :
    RTG.MINIMUM_BID ≤ RTG.roundToTick
        (min ((RTG.MAX_ASK_NEAREST_TICK : ℤ) : ℚ)
          (max ((RTG.MIN_BID_NEAREST_TICK + spread : ℤ) : ℚ) araw))
  ∧ RTG.roundToTick
        (min ((RTG.MAX_ASK_NEAREST_TICK : ℤ) : ℚ)
          (max ((RTG.MIN_BID_NEAREST_TICK + spread : ℤ) : ℚ) araw)) ≤ RTG.MAXIMUM_ASK := by
  have h := ask_clamp_in_range spread araw h0 h1
  rw [min_bid_nearest_tick_eq, max_ask_nearest_tick_eq] at h
  rw [min_bid_nearest_tick_eq, max_ask_nearest_tick_eq, RTG.MINIMUM_BID, RTG.MAXIMUM_ASK]
  omega

/-- C2 amended: in both variants, every price carried by an InsertOrder or
HedgeOrder command is an integer multiple of the tick size; hedge prices are
always within [MIN_PRICE, MAX_PRICE], and quoted insert prices are within
[MIN_PRICE, MAX_PRICE] whenever the spread the pricing code derives from the
ladder (top of book in variant A, depth 2 in variant B) is nonnegative and no
wider than the whole legal band; for an arbitrarily wide spread the bid-side
clamp bound MAX_ASK_NEAREST_TICK - spread drops below the legal minimum and
an out-of-range price is sent. -/
theorem C2_price_validity_amended (sA : Autotrader.State) (sB : Autotrader5.State)
    (e : RTG.Event) (c : RTG.Command) :
    (c ∈ (stepA sA e).2 → priceAligned c ∧ (spreadWithinBandA e → priceInRange c))
  ∧ (c ∈ (stepB sB e).2 → priceAligned c ∧ (spreadWithinBandB e → priceInRange c)) := by
  constructor
  · intro h
    cases e with
    | errorMessage cid =>
        rw [show (stepA sA (RTG.Event.errorMessage cid)).2
            = (Autotrader.on_error_message sA cid).2 from rfl, onErrorA_out_nil] at h
        simp at h
    | hedgeFilledMessage cid p v =>
        simp [stepA, Autotrader.on_hedge_filled_message] at h
    | tradeTicks i sq b =>
        simp [stepA] at h
    | orderStatusMessage cid f r g =>
        rw [show (stepA sA (RTG.Event.orderStatusMessage cid f r g)).2
            = (Autotrader.on_order_status_message sA cid f r g).2 from rfl,
          onOrderStatusA_out_nil] at h
        simp at h
    | orderFilledMessage cid p v =>
        rcases onOrderFilledA_out sA cid p v c h with ⟨j, hc⟩ | hc | hc <;> subst hc
        · exact ⟨trivial, fun _ => trivial⟩
        · exact ⟨⟨1, by decide⟩, fun _ =>
            (by decide : RTG.MINIMUM_BID ≤ RTG.MIN_BID_NEAREST_TICK
              ∧ RTG.MIN_BID_NEAREST_TICK ≤ RTG.MAXIMUM_ASK)⟩
        · exact ⟨⟨21474836, by decide⟩, fun _ =>
            (by decide : RTG.MINIMUM_BID ≤ RTG.MAX_ASK_NEAREST_TICK
              ∧ RTG.MAX_ASK_NEAREST_TICK ≤ RTG.MAXIMUM_ASK)⟩
    | orderBookUpdate i sq b =>
        obtain ⟨braw, araw, hq⟩ := quotePricesA_spec sA.position sA.trading_volume sA.price_trend b
        rcases onOrderBookA_out sA i sq b c h with ⟨j, hc⟩ | ⟨j, v, hc⟩ | ⟨j, v, hc⟩ <;> subst hc
        · exact ⟨trivial, fun _ => trivial⟩
        · rw [hq]
          exact ⟨roundToTick_dvd _, fun hsp => insert_bid_price_in_range _ braw hsp.1 hsp.2⟩
        · rw [hq]
          exact ⟨roundToTick_dvd _, fun hsp => insert_ask_price_in_range _ araw hsp.1 hsp.2⟩
  · intro h
    cases e with
    | errorMessage cid =>
        rw [show (stepB sB (RTG.Event.errorMessage cid)).2
            = (Autotrader5.on_error_message sB cid).2 from rfl, onErrorB_out_nil] at h
        simp at h
    | hedgeFilledMessage cid p v =>
        simp [stepB, Autotrader5.on_hedge_filled_message] at h
    | tradeTicks i sq b =>
        simp [stepB, Autotrader5.on_trade_ticks_message] at h
    | orderStatusMessage cid f r g =>
        rw [show (stepB sB (RTG.Event.orderStatusMessage cid f r g)).2
            = (Autotrader5.on_order_status_message sB cid f r g).2 from rfl,
          onOrderStatusB_out_nil] at h
        simp at h
    | orderFilledMessage cid p v =>
        rcases onOrderFilledB_out sB cid p v c h with hc | hc <;> subst hc
        · exact ⟨⟨1, by decide⟩, fun _ =>
            (by decide : RTG.MINIMUM_BID ≤ RTG.MIN_BID_NEAREST_TICK
              ∧ RTG.MIN_BID_NEAREST_TICK ≤ RTG.MAXIMUM_ASK)⟩
        · exact ⟨⟨21474836, by decide⟩, fun _ =>
            (by decide : RTG.MINIMUM_BID ≤ RTG.MAX_ASK_NEAREST_TICK
              ∧ RTG.MAX_ASK_NEAREST_TICK ≤ RTG.MAXIMUM_ASK)⟩
    | orderBookUpdate i sq b =>
        obtain ⟨braw, araw, hq⟩ := quotePricesB_spec sB.position b
        rcases onOrderBookB_out sB i sq b c h with ⟨j, hc⟩ | ⟨j, v, hc⟩ | ⟨j, v, hc⟩ <;> subst hc
        · exact ⟨trivial, fun _ => trivial⟩
        · rw [hq]
          exact ⟨roundToTick_dvd _, fun hsp => insert_bid_price_in_range _ braw hsp.1 hsp.2⟩
        · rw [hq]
          exact ⟨roundToTick_dvd _, fun hsp => insert_ask_price_in_range _ araw hsp.1 hsp.2⟩

theorem stepA_scenario1_output :
    (stepA Autotrader.initialState (RTG.Event.orderBookUpdate RTG.FUTURE 1 scenario1Book)).2
      = [RTG.Command.insertOrder 1 RTG.Side.bid 10000 10 RTG.Lifespan.fillAndKill,
         RTG.Command.insertOrder 2 RTG.Side.ask 10000 10 RTG.Lifespan.fillAndKill] := by
  norm_num [stepA, Autotrader.on_order_book_update_message, Autotrader.quote_prices,
    Autotrader.trend_adjustment, Autotrader.trend_update, Autotrader.cancel_stale_bid,
    Autotrader.cancel_stale_ask, Autotrader.place_bid, Autotrader.place_ask,
    Autotrader.initialState, scenario1Book, RTG.roundToTick, RTG.MAX_ASK_NEAREST_TICK,
    RTG.MIN_BID_NEAREST_TICK, RTG.MAXIMUM_ASK, RTG.MINIMUM_BID, RTG.TICK_SIZE_IN_CENTS,
    RTG.POSITION_LIMIT, RTG.FUTURE, Autotrader.LOT_SIZE, Int.fdiv]

theorem stepB_scenario1_output :
    (stepB Autotrader5.initialState (RTG.Event.orderBookUpdate RTG.FUTURE 1 scenario1Book)).2
      = [RTG.Command.insertOrder 1 RTG.Side.bid 10000 14 RTG.Lifespan.gfd,
         RTG.Command.insertOrder 2 RTG.Side.ask 10000 14 RTG.Lifespan.gfd] := by
  norm_num [stepB, Autotrader5.on_order_book_update_message, Autotrader5.quote_prices,
    Autotrader5.cancel_stale_bid, Autotrader5.cancel_stale_ask, Autotrader5.place_bid,
    Autotrader5.place_ask, Autotrader5.outstandingVolume, Autotrader5.dictStore,
    Autotrader5.dictPop, Autotrader5.initialState, scenario1Book, RTG.roundToTick,
    RTG.MAX_ASK_NEAREST_TICK, RTG.MIN_BID_NEAREST_TICK, RTG.MAXIMUM_ASK, RTG.MINIMUM_BID,
    RTG.TICK_SIZE_IN_CENTS, RTG.POSITION_LIMIT, RTG.FUTURE, Autotrader5.LOT_SIZE, Int.fdiv]

theorem C2_witness :
    (priceAligned (RTG.Command.insertOrder 1 RTG.Side.bid 10000 10 RTG.Lifespan.fillAndKill)
      ∧ (spreadWithinBandA (RTG.Event.orderBookUpdate RTG.FUTURE 1 scenario1Book)
          → priceInRange (RTG.Command.insertOrder 1 RTG.Side.bid 10000 10 RTG.Lifespan.fillAndKill)))
  ∧ (priceAligned (RTG.Command.insertOrder 1 RTG.Side.bid 10000 14 RTG.Lifespan.gfd)
      ∧ (spreadWithinBandB (RTG.Event.orderBookUpdate RTG.FUTURE 1 scenario1Book)
          → priceInRange (RTG.Command.insertOrder 1 RTG.Side.bid 10000 14 RTG.Lifespan.gfd))) :=
  ⟨(C2_price_validity_amended Autotrader.initialState Autotrader5.initialState
        (RTG.Event.orderBookUpdate RTG.FUTURE 1 scenario1Book)
        (RTG.Command.insertOrder 1 RTG.Side.bid 10000 10 RTG.Lifespan.fillAndKill)).1
      (by rw [stepA_scenario1_output]; exact List.mem_cons_self _ _),
   (C2_price_validity_amended Autotrader.initialState Autotrader5.initialState
        (RTG.Event.orderBookUpdate RTG.FUTURE 1 scenario1Book)
        (RTG.Command.insertOrder 1 RTG.Side.bid 10000 14 RTG.Lifespan.gfd)).2
      (by rw [stepB_scenario1_output]; exact List.mem_cons_self _ _)⟩
